import Mathlib

/-
Verification development for the TryCentral flow-pilot chat component.

The repository is a single React component in three variants:
  - src/src/components/ChatInterface.tsx (the base variant),
  - src/unnamed/part_000 (a variant with tool-connection state and a
    per-tool staging flow; its tail embeds a second copy of the base
    variant with slightly different template strings),
  - src/unnamed/part_001 (a variant whose staging cascade runs entirely
    inside handleConnectWorkflow).

The embedding below models the non-presentational logic of these files:
the intent classifier analyzeUserIntent, the chat-history operation
handleSendMessage, the tool-connection map and its connectTool update,
and the workflow staging sequencer of the part_001 and part_000
variants.  Wall-clock data (message ids from Date.now, timestamps) and
purely presentational state (icons, colors, the isConnecting spinner
flag and connectingTool label) are omitted; setTimeout delays are
modelled by the order in which the scheduled callbacks fire, not by
real time.
-/

namespace TryCentral

/-- Containment of one character list at the head of another; building
block for substring search. -/
def charsHavePre : List Char → List Char → Bool
  | [], _ => true
  | _ :: _, [] => false
  | p :: ps, c :: cs => p == c && charsHavePre ps cs

/-- Substring search over character lists. -/
def charsHaveSub (pat : List Char) : List Char → Bool
  | [] => charsHavePre pat []
  | c :: cs => charsHavePre pat (c :: cs) || charsHaveSub pat cs

/-- Model of the JavaScript String.prototype.includes test used by the
classifier: does s contain pat as a contiguous substring. -/
def strIncludes (s pat : String) : Bool :=
  charsHaveSub pat.toList s.toList

/-- Model of JavaScript String.prototype.toLowerCase as used on the
ASCII keyword inputs of the classifier: lowercases each character. -/
def jsToLower (s : String) : String :=
  ⟨s.data.map Char.toLower⟩

/-- Model of JavaScript String.prototype.trim on ASCII input: drops
leading and trailing whitespace characters. -/
def jsTrim (s : String) : String :=
  ⟨((s.data.dropWhile Char.isWhitespace).reverse.dropWhile Char.isWhitespace).reverse⟩

/-- The WorkflowSuggestion record of the component (trigger, action,
frequency, tools, optional missingInfo, optional prefilled flag; the
absent prefilled field of the TS record is falsy, modelled by a default
of false). -/
structure WorkflowSuggestion where
  trigger : String
  action : String
  frequency : String
  tools : List String
  missingInfo : Option (List String) := none
  prefilled : Bool := false
deriving DecidableEq, Repr

/-- The intent classifier analyzeUserIntent of ChatInterface.tsx lines
49 to 94 (identical in the main variants of part_000 and part_001): an
ordered, first-match-wins chain of case-insensitive substring rules
over the lowercased message. -/
def analyzeUserIntent (message : String) : Option WorkflowSuggestion :=
  let lowerMessage := jsToLower message
  if strIncludes lowerMessage "slack" && (strIncludes lowerMessage "every" || strIncludes lowerMessage "daily" || strIncludes lowerMessage "morning") then
    some { trigger := "Time-based"
           action := "Send Slack message"
           frequency := "Daily at 9:00 AM"
           tools := ["Slack"]
           missingInfo := some ["Which Slack channel?", "What message content?"] }
  else if strIncludes lowerMessage "email" && strIncludes lowerMessage "whatsapp" then
    some { trigger := "Email received"
           action := "Send WhatsApp notification"
           frequency := "Every time"
           tools := ["Gmail", "WhatsApp"]
           missingInfo := some ["Define \"important email\" criteria"] }
  else if strIncludes lowerMessage "remind" || strIncludes lowerMessage "reminder" then
    some { trigger := "Time-based"
           action := "Send reminder"
           frequency := "Custom"
           tools := ["Calendar", "Notifications"]
           missingInfo := some ["When should I remind you?", "What reminder message?"] }
  else if strIncludes lowerMessage "when" || strIncludes lowerMessage "if" then
    some { trigger := "Event-based"
           action := "Execute action"
           frequency := "When condition is met"
           tools := ["To be determined"]
           missingInfo := some ["What specific condition?", "What action to take?"] }
  else
    none

/-- Author of a chat message. -/
inductive MsgType where
  | user
  | bot
deriving DecidableEq, Repr

/-- A chat message; the id and timestamp fields of the source record
are wall-clock derived and carry no logic, so they are omitted. -/
structure Message where
  type : MsgType
  content : String
  workflowSuggestion : Option WorkflowSuggestion := none
deriving DecidableEq, Repr

/-- The chat-level component state touched by handleSendMessage:
message history, the input field, and the typing flag. -/
structure ChatState where
  messages : List Message
  input : String
  isTyping : Bool
deriving DecidableEq, Repr

/-- The fixed clarification reply of handleSendMessage when the
classifier returns null (ChatInterface.tsx lines 127 to 129). -/
def clarificationResponse : String :=
  "I\x27d love to help you automate that! Can you be more specific about when you want this to happen and what action should be taken? For example: \"Every Monday at 10am\" or \"When I receive an email from my boss\""

/-- handleSendMessage of ChatInterface.tsx lines 106 to 142, collapsed
over its 1500 ms simulated-processing timer: a blank (all-whitespace)
input returns immediately with no state change; otherwise the user
message is appended, the input cleared, and once the timer fires the
bot reply computed from analyzeUserIntent on the captured input is
appended and the typing flag dropped.  The state returned is the state
after the timer has fired. -/
def handleSendMessage (s : ChatState) : ChatState :=
  if jsTrim s.input = "" then s
  else
    let userMessage : Message := { type := MsgType.user, content := s.input }
    let workflowSuggestion := analyzeUserIntent s.input
    let botResponse :=
      match workflowSuggestion with
      | some _ => "I understand! You want to automate: \"" ++ s.input ++ "\". Let me set this up for you."
      | none => clarificationResponse
    let botMessage : Message :=
      { type := MsgType.bot, content := botResponse, workflowSuggestion := workflowSuggestion }
    { messages := s.messages ++ [userMessage, botMessage], input := "", isTyping := false }

/-- The ConnectedTools map (tool name to connected flag) of part_000
and part_001.  The JS object is modelled by its lookup function; a key
absent from the object reads as undefined, which is falsy, so absence
is modelled by false. -/
abbrev ConnectedTools := String → Bool

/-- connectTool of part_000 lines 158 to 165 and part_001 lines 170 to
177, collapsed over its 2000 ms timer: the promise always resolves,
and its sole effect is the spread update that maps the given tool name
to true and leaves every other key as before. -/
def connectTool (m : ConnectedTools) (toolName : String) : ConnectedTools :=
  fun key => if key = toolName then true else m key

/-- Status of one staging stage: the string values used by the source. -/
inductive StageStatus where
  | pending
  | loading
  | completed
deriving DecidableEq, Repr

/-- The stepStatuses record of the WorkflowCard: one status per stage. -/
structure StepStatuses where
  connect : StageStatus
  permissions : StageStatus
  test : StageStatus
deriving DecidableEq, Repr

/-- All three stages pending: the initial stepStatuses value and the
value handleEditWorkflow resets to. -/
def allPendingSt : StepStatuses :=
  ⟨StageStatus.pending, StageStatus.pending, StageStatus.pending⟩

/-- All three stages completed: the terminal stepStatuses value. -/
def allCompletedSt : StepStatuses :=
  ⟨StageStatus.completed, StageStatus.completed, StageStatus.completed⟩

/-- Numeric height of a stage status along the pending, loading,
completed progression, used to state that transitions move forward. -/
def statusRank : StageStatus → Nat
  | StageStatus.pending => 0
  | StageStatus.loading => 1
  | StageStatus.completed => 2

/-- One stage status is at or before another in the progression. -/
def stageLeB (a b : StageStatus) : Bool :=
  Nat.ble (statusRank a) (statusRank b)

/-- Stage-wise forward (non-decreasing) comparison of two stepStatuses
records. -/
def stForwardB (x y : StepStatuses) : Bool :=
  stageLeB x.connect y.connect && stageLeB x.permissions y.permissions && stageLeB x.test y.test

/-- Every adjacent pair of a snapshot list is stage-wise forward. -/
def chainForwardB : List StepStatuses → Bool
  | [] => true
  | [_] => true
  | x :: y :: rest => stForwardB x y && chainForwardB (y :: rest)

/-- disconnectedToolsList of the WorkflowCard (part_000 line 280,
part_001 line 292): the required tools whose connected flag is falsy. -/
def disconnectedToolsList (sugg : WorkflowSuggestion) (ct : ConnectedTools) : List String :=
  sugg.tools.filter (fun tool => !(ct tool))

/-- allToolsConnected of the WorkflowCard (part_000 line 281, part_001
line 293): the disconnected list is empty. -/
def allToolsConnected (sugg : WorkflowSuggestion) (ct : ConnectedTools) : Bool :=
  (disconnectedToolsList sugg ct).length == 0

/-
Staging sequencer, part_001 variant.  The card state tracked here is
showSetupSteps, currentStep, stepStatuses and the shared connectedTools
map.  The chain of nested setTimeout callbacks scheduled inside
handleConnectWorkflow (part_001 lines 313 to 347) is modelled by the
cascade field: some k means the k-th callback of the chain is the next
one pending, none means no callback is pending.  handleEditWorkflow
does not cancel timers, so the cascade field survives its reset; the
only callback that can still be pending at that point is the final
success-message one (position 5), which does not touch stepStatuses.
-/

/-- Sequencer state of the part_001 WorkflowCard. -/
structure SeqState where
  connectedTools : ConnectedTools
  showSetupSteps : Bool
  currentStep : Nat
  stepStatuses : StepStatuses
  cascade : Option Nat

/-- The stepStatuses value while the k-th cascade callback of
handleConnectWorkflow is pending: the click itself sets connect to
loading, callback 0 completes connect, 1 starts permissions, 2
completes permissions, 3 starts test, 4 completes test, and 5 only
posts the success chat message. -/
def cascadeStages : Nat → StepStatuses
  | 0 => ⟨StageStatus.loading, StageStatus.pending, StageStatus.pending⟩
  | 1 => ⟨StageStatus.completed, StageStatus.pending, StageStatus.pending⟩
  | 2 => ⟨StageStatus.completed, StageStatus.loading, StageStatus.pending⟩
  | 3 => ⟨StageStatus.completed, StageStatus.completed, StageStatus.pending⟩
  | 4 => ⟨StageStatus.completed, StageStatus.completed, StageStatus.loading⟩
  | _ => allCompletedSt

/-- handleConnectTool of part_001 lines 358 to 380: connects the given
tool via connectTool and posts a chat message; it does not touch the
stage statuses (the isConnecting and connectingTool spinner fields it
toggles are presentational and omitted). -/
def handleConnectToolB (s : SeqState) (toolName : String) : SeqState :=
  { s with connectedTools := connectTool s.connectedTools toolName }

/-- Firing of the next pending setTimeout callback of the
handleConnectWorkflow chain: applies that callback's updates (stage
status, currentStep where the source advances it) and leaves the next
callback of the chain pending. -/
def fireCascade (s : SeqState) : SeqState :=
  match s.cascade with
  | none => s
  | some k =>
    { s with
      stepStatuses :=
        match k with
        | 0 => { s.stepStatuses with connect := StageStatus.completed }
        | 1 => { s.stepStatuses with permissions := StageStatus.loading }
        | 2 => { s.stepStatuses with permissions := StageStatus.completed }
        | 3 => { s.stepStatuses with test := StageStatus.loading }
        | 4 => { s.stepStatuses with test := StageStatus.completed }
        | _ => s.stepStatuses
      currentStep := if k = 0 then 2 else if k = 2 then 3 else s.currentStep
      cascade := if k < 5 then some (k + 1) else none }

/-- handleConnectWorkflow of part_001 lines 295 to 356: with a
disconnected required tool it only starts connecting the first one;
otherwise it opens the setup panel, sets currentStep to 1, puts the
connect stage into loading, and schedules the timer cascade. -/
def handleConnectWorkflowB (sugg : WorkflowSuggestion) (s : SeqState) : SeqState :=
  if allToolsConnected sugg s.connectedTools = false then
    match disconnectedToolsList sugg s.connectedTools with
    | t :: _ => handleConnectToolB s t
    | [] => s
  else
    { s with
      showSetupSteps := true
      currentStep := 1
      stepStatuses := ⟨StageStatus.loading, StageStatus.pending, StageStatus.pending⟩
      cascade := some 0 }

/-- handleEditWorkflow of part_001 lines 449 to 466 (identical in
part_000 lines 383 to 400): closes the setup panel, resets currentStep
to 1 and all three stage statuses to pending, and posts a chat
message.  It does not cancel pending timers, so the cascade field is
untouched. -/
def handleEditWorkflowB (s : SeqState) : SeqState :=
  { s with
    showSetupSteps := false
    currentStep := 1
    stepStatuses := allPendingSt }

/-- User-interface events that drive the part_001 sequencer.  The
connect-tool click is left unguarded (any tool name, any time), a
superset of what the rendered buttons allow; it only grows the
connection map, so every safety statement proved over this superset
holds for the real interface. -/
inductive Ev where
  | clickConnectWorkflow
  | timerFire
  | clickConnectTool (tool : String)
  | clickEditWorkflow
deriving DecidableEq, Repr

/-- One step of the part_001 sequencer.  The connect-workflow button is
rendered only while the test stage is not completed and is disabled
while showSetupSteps or not allToolsConnected (part_001 lines 799 and
822); the edit-workflow button is rendered only once the test stage is
completed (line 799).  A click on a missing or disabled button is a
no-op. -/
def step (sugg : WorkflowSuggestion) (s : SeqState) : Ev → SeqState
  | Ev.clickConnectWorkflow =>
    if s.stepStatuses.test ≠ StageStatus.completed ∧ s.showSetupSteps = false ∧
        allToolsConnected sugg s.connectedTools = true then
      handleConnectWorkflowB sugg s
    else s
  | Ev.timerFire => fireCascade s
  | Ev.clickConnectTool t => handleConnectToolB s t
  | Ev.clickEditWorkflow =>
    if s.stepStatuses.test = StageStatus.completed then handleEditWorkflowB s else s

/-- Running a list of events through the part_001 sequencer. -/
def run (sugg : WorkflowSuggestion) (s : SeqState) (evs : List Ev) : SeqState :=
  evs.foldl (step sugg) s

/-- The card state a freshly rendered part_001 WorkflowCard starts in,
over a given ambient connection map: setup panel closed, currentStep 1,
all stages pending, no timer pending. -/
def initSeqState (ct0 : ConnectedTools) : SeqState :=
  { connectedTools := ct0
    showSetupSteps := false
    currentStep := 1
    stepStatuses := allPendingSt
    cascade := none }

/-- Reachability of a sequencer state from the initial state of a card
under any sequence of interface events. -/
inductive Reach (sugg : WorkflowSuggestion) (ct0 : ConnectedTools) : SeqState → Prop where
  | init : Reach sugg ct0 (initSeqState ct0)
  | next {s : SeqState} (ev : Ev) : Reach sugg ct0 s → Reach sugg ct0 (step sugg s ev)

/-
Staging flow, part_000 variant.  In that file the per-tool connect
buttons of the connection-status alert (lines 567 to 574) call
handleConnectTool directly, and handleConnectTool itself (lines 302 to
322) drives the connect stage: it synchronously sets connect to
loading, then after connectTool resolves marks connect completed and
moves currentStep to 2, regardless of whether the other required tools
are connected.
-/

/-- Card state of the part_000 WorkflowCard relevant to its
handleConnectTool flow. -/
structure CardStateA where
  connectedTools : ConnectedTools
  stepStatuses : StepStatuses
  currentStep : Nat

/-- Synchronous prefix of part_000 handleConnectTool (lines 302 to
306): before awaiting connectTool it sets the connect stage to
loading. -/
def handleConnectToolStartA (s : CardStateA) : CardStateA :=
  { s with stepStatuses := { s.stepStatuses with connect := StageStatus.loading } }

/-- Completion of part_000 handleConnectTool (lines 308 to 317) once
connectTool has resolved: the target tool (the argument, or the first
disconnected tool when no argument is given; a JS undefined index
would read back as the key "undefined") is marked connected, the
connect stage is marked completed and currentStep becomes 2, with no
check of the remaining required tools. -/
def handleConnectToolDoneA (sugg : WorkflowSuggestion) (toolName : Option String)
    (s : CardStateA) : CardStateA :=
  let toolToConnect := toolName.getD ((disconnectedToolsList sugg s.connectedTools).headD "undefined")
  { s with
    connectedTools := connectTool s.connectedTools toolToConnect
    stepStatuses := { s.stepStatuses with connect := StageStatus.completed }
    currentStep := 2 }

/-- Every required tool of the suggestion is connected in the state. -/
def toolsAllConn (sugg : WorkflowSuggestion) (s : SeqState) : Prop :=
  ∀ t ∈ sugg.tools, s.connectedTools t = true

/-- Structural invariant of the part_001 sequencer.  While a cascade
callback is pending the stage statuses are the exact snapshot for that
position, the setup panel is open (except after an edit reset, which
can only leave the final no-op callback pending), and all required
tools are connected; with no callback pending the stages are all
completed when the panel is open and all pending when closed. -/
def SeqInv (sugg : WorkflowSuggestion) (s : SeqState) : Prop :=
  match s.cascade with
  | some k =>
    k ≤ 5 ∧ toolsAllConn sugg s ∧
    (k ≤ 4 → s.stepStatuses = cascadeStages k ∧ s.showSetupSteps = true) ∧
    (k = 5 →
      (s.showSetupSteps = true ∧ s.stepStatuses = allCompletedSt) ∨
      (s.showSetupSteps = false ∧ s.stepStatuses = allPendingSt))
  | none =>
    (s.showSetupSteps = true → s.stepStatuses = allCompletedSt ∧ toolsAllConn sugg s) ∧
    (s.showSetupSteps = false → s.stepStatuses = allPendingSt)

theorem connectTool_keeps (m : ConnectedTools) (toolName t : String)
    (h : m t = true) : connectTool m toolName t = true := by
  unfold connectTool
  by_cases hx : t = toolName
  · simp [hx]
  · simp [hx, h]

theorem toolsAllConn_connectTool {sugg : WorkflowSuggestion} {s : SeqState} (toolName : String)
    (h : toolsAllConn sugg s) :
    toolsAllConn sugg { s with connectedTools := connectTool s.connectedTools toolName } := by
  intro t ht
  exact connectTool_keeps _ _ _ (h t ht)

theorem allToolsConnected_iff (sugg : WorkflowSuggestion) (ct : ConnectedTools) :
    allToolsConnected sugg ct = true ↔ ∀ t ∈ sugg.tools, ct t = true := by
  unfold allToolsConnected disconnectedToolsList
  generalize sugg.tools = l
  induction l with
  | nil => simp
  | cons a l ih =>
    simp only [List.filter_cons]
    cases h : ct a with
    | false => simp [h]
    | true => simp only [h, Bool.not_true, if_false, ih]; simp [h]

theorem seqInv_connectTool {sugg : WorkflowSuggestion} {s : SeqState} (toolName : String)
    (h : SeqInv sugg s) : SeqInv sugg (handleConnectToolB s toolName) := by
  unfold SeqInv handleConnectToolB at *
  cases hc : s.cascade with
  | none =>
    rw [hc] at h
    refine ⟨fun hs => ⟨(h.1 hs).1, toolsAllConn_connectTool toolName (h.1 hs).2⟩, fun hs => h.2 hs⟩
  | some k =>
    rw [hc] at h
    exact ⟨h.1, toolsAllConn_connectTool toolName h.2.1, h.2.2.1, h.2.2.2⟩

theorem seqInv_step (sugg : WorkflowSuggestion) (s : SeqState) (ev : Ev)
    (h : SeqInv sugg s) : SeqInv sugg (step sugg s ev) := by
  cases ev with
  | clickConnectTool t => exact seqInv_connectTool t h
  | timerFire =>
    show SeqInv sugg (fireCascade s)
    unfold fireCascade
    cases hc : s.cascade with
    | none => simp only [hc]; exact h
    | some k =>
      unfold SeqInv at h
      rw [hc] at h
      obtain ⟨hk5, hconn, hle4, heq5⟩ := h
      interval_cases k
      · obtain ⟨hst, hshow⟩ := hle4 (by omega)
        unfold SeqInv
        exact ⟨by omega, hconn, fun _ => ⟨by rw [hst]; rfl, hshow⟩, by omega⟩
      · obtain ⟨hst, hshow⟩ := hle4 (by omega)
        unfold SeqInv
        exact ⟨by omega, hconn, fun _ => ⟨by rw [hst]; rfl, hshow⟩, by omega⟩
      · obtain ⟨hst, hshow⟩ := hle4 (by omega)
        unfold SeqInv
        exact ⟨by omega, hconn, fun _ => ⟨by rw [hst]; rfl, hshow⟩, by omega⟩
      · obtain ⟨hst, hshow⟩ := hle4 (by omega)
        unfold SeqInv
        exact ⟨by omega, hconn, fun _ => ⟨by rw [hst]; rfl, hshow⟩, by omega⟩
      · obtain ⟨hst, hshow⟩ := hle4 (by omega)
        unfold SeqInv
        refine ⟨by omega, hconn, fun hcontra => absurd hcontra (by omega), fun _ => ?_⟩
        exact Or.inl ⟨hshow, by rw [hst]; rfl⟩
      · rcases heq5 rfl with ⟨hshow, hst⟩ | ⟨hshow, hst⟩
        · unfold SeqInv
          exact ⟨fun hs => ⟨hst, hconn⟩, fun hs => by rw [hs] at hshow; cases hshow⟩
        · unfold SeqInv
          exact ⟨(fun hs => by rw [hs] at hshow; cases hshow), fun _ => hst⟩
  | clickConnectWorkflow =>
    show SeqInv sugg (if _ then handleConnectWorkflowB sugg s else s)
    by_cases hg : s.stepStatuses.test ≠ StageStatus.completed ∧ s.showSetupSteps = false ∧
        allToolsConnected sugg s.connectedTools = true
    · rw [if_pos hg]
      obtain ⟨htest, hshow, hall⟩ := hg
      unfold handleConnectWorkflowB
      rw [hall]
      simp only [Bool.true_eq_false, if_false]
      unfold SeqInv
      refine ⟨by omega, ?_, fun _ => ⟨rfl, rfl⟩, by omega⟩
      intro t ht
      exact (allToolsConnected_iff sugg s.connectedTools).mp hall t ht
    · rw [if_neg hg]; exact h
  | clickEditWorkflow =>
    show SeqInv sugg (if _ then handleEditWorkflowB s else s)
    by_cases hg : s.stepStatuses.test = StageStatus.completed
    · rw [if_pos hg]
      unfold SeqInv handleEditWorkflowB at *
      cases hc : s.cascade with
      | none =>
        rw [hc] at h
        exact ⟨(fun hs => by cases hs), fun _ => rfl⟩
      | some k =>
        rw [hc] at h
        obtain ⟨hk5, hconn, hle4, _⟩ := h
        have hk5' : k = 5 := by
          by_contra hne
          have hk4 : k ≤ 4 := by omega
          obtain ⟨hst, _⟩ := hle4 hk4
          rw [hst] at hg
          interval_cases k <;> simp [cascadeStages, allCompletedSt] at hg
        subst hk5'
        exact ⟨by omega, hconn, fun hcontra => by omega, fun _ => Or.inr ⟨rfl, rfl⟩⟩
    · rw [if_neg hg]; exact h

theorem reach_inv {sugg : WorkflowSuggestion} {ct0 : ConnectedTools} {s : SeqState}
    (h : Reach sugg ct0 s) : SeqInv sugg s := by
  induction h with
  | init =>
    unfold SeqInv initSeqState
    exact ⟨(fun hs => by cases hs), fun _ => rfl⟩
  | next ev _ ih => exact seqInv_step sugg _ ev ih

/-- C3: every input whose lowercased form contains both "slack" and
"daily" is classified by analyzeUserIntent to a suggestion whose
action is "Send Slack message" and whose tools list is exactly
["Slack"]. -/
theorem claim3_slack_daily_classification (s : String)
    (h1 : strIncludes (jsToLower s) "slack" = true)
    (h2 : strIncludes (jsToLower s) "daily" = true) :
    ∃ w, analyzeUserIntent s = some w ∧
      w.action = "Send Slack message" ∧ w.tools = ["Slack"] := by
  unfold analyzeUserIntent
  simp only [h1, h2, Bool.true_or, Bool.or_true, Bool.true_and, if_true]
  exact ⟨_, rfl, rfl, rfl⟩

/-- Witness for C3 at the concrete input "slack daily". -/
theorem claim3_slack_daily_classification_witness :
    (analyzeUserIntent "slack daily").map WorkflowSuggestion.action = some "Send Slack message" ∧
    (analyzeUserIntent "slack daily").map WorkflowSuggestion.tools = some ["Slack"] := by
  obtain ⟨w, hw, ha, ht⟩ :=
    claim3_slack_daily_classification "slack daily" (by decide) (by decide)
  rw [hw]
  exact ⟨by simp only [Option.map]; rw [ha], by simp only [Option.map]; rw [ht]⟩

/-- C4: the input "Send me a Slack reminder every morning at 9am"
contains the rule-3 keyword "remind", yet rule 1 wins by first-match
order and the classifier returns exactly the scheduled-Slack template
with trigger "Time-based", action "Send Slack message", frequency
"Daily at 9:00 AM" and tools ["Slack"]. -/
theorem claim4_first_match_short_circuit :
    strIncludes (jsToLower "Send me a Slack reminder every morning at 9am") "remind" = true ∧
    analyzeUserIntent "Send me a Slack reminder every morning at 9am" =
      some { trigger := "Time-based"
             action := "Send Slack message"
             frequency := "Daily at 9:00 AM"
             tools := ["Slack"]
             missingInfo := some ["Which Slack channel?", "What message content?"] } := by
  constructor
  · decide
  · decide

/-- C6: an input matching none of the four keyword rules is classified
to none, and (whenever the input is not all-whitespace, so that
handleSendMessage appends at all) the assistant message appended to the
history carries no workflow suggestion and is exactly the fixed
clarification response. -/
theorem claim6_no_rule_clarification (s : String)
    (h1 : (strIncludes (jsToLower s) "slack" &&
      (strIncludes (jsToLower s) "every" || strIncludes (jsToLower s) "daily" ||
        strIncludes (jsToLower s) "morning")) = false)
    (h2 : (strIncludes (jsToLower s) "email" && strIncludes (jsToLower s) "whatsapp") = false)
    (h3 : (strIncludes (jsToLower s) "remind" || strIncludes (jsToLower s) "reminder") = false)
    (h4 : (strIncludes (jsToLower s) "when" || strIncludes (jsToLower s) "if") = false) :
    analyzeUserIntent s = none ∧
    ∀ (ms : List Message) (ty : Bool), jsTrim s ≠ "" →
      handleSendMessage { messages := ms, input := s, isTyping := ty } =
        { messages := ms ++
            [{ type := MsgType.user, content := s, workflowSuggestion := none },
             { type := MsgType.bot, content := clarificationResponse, workflowSuggestion := none }]
          input := ""
          isTyping := false } := by
  have hnone : analyzeUserIntent s = none := by
    unfold analyzeUserIntent
    simp only [h1, h2, h3, h4, Bool.false_eq_true, if_false]
  refine ⟨hnone, fun ms ty htrim => ?_⟩
  unfold handleSendMessage
  rw [if_neg htrim]
  simp only [hnone]

/-- Witness for C6 at the concrete input "hello" with an empty prior
history. -/
theorem claim6_no_rule_clarification_witness :
    analyzeUserIntent "hello" = none ∧
    handleSendMessage { messages := [], input := "hello", isTyping := true } =
      { messages :=
          [{ type := MsgType.user, content := "hello", workflowSuggestion := none },
           { type := MsgType.bot, content := clarificationResponse, workflowSuggestion := none }]
        input := ""
        isTyping := false } := by
  have h := claim6_no_rule_clarification "hello" (by decide) (by decide) (by decide) (by decide)
  exact ⟨h.1, by rw [h.2 [] true (by decide)]; rfl⟩

/-- C7: the input "remind me to call mom" matches rule 3 and yields a
suggestion with tools exactly ["Calendar", "Notifications"] and
exactly two missing-info prompts. -/
theorem claim7_remind_rule_three :
    (analyzeUserIntent "remind me to call mom").map WorkflowSuggestion.tools =
      some ["Calendar", "Notifications"] ∧
    (analyzeUserIntent "remind me to call mom").map
        (fun w => (w.missingInfo.getD []).length) = some 2 := by
  constructor
  · decide
  · decide

/-- C10: with an input whose trimmed form is empty, handleSendMessage
returns immediately and the whole chat state (history, typing flag and
input field) is unchanged. -/
theorem claim10_blank_input_noop (st : ChatState) (h : jsTrim st.input = "") :
    handleSendMessage st = st := by
  unfold handleSendMessage
  rw [if_pos h]

/-- Witness for C10 at a concrete whitespace-only input. -/
theorem claim10_blank_input_noop_witness :
    handleSendMessage { messages := [], input := "   ", isTyping := false } =
      { messages := [], input := "   ", isTyping := false } :=
  claim10_blank_input_noop { messages := [], input := "   ", isTyping := false } (by decide)

/-- C5: connecting an already-connected tool is idempotent: the update
performed by connectTool maps the tool to true again and leaves every
other key as it was, so the resulting map equals the original (and the
operation, being a total function here as the source promise always
resolves, cannot fail). -/
theorem claim5_connect_idempotent (m : ConnectedTools) (t : String) (h : m t = true) :
    connectTool m t = m := by
  funext key
  unfold connectTool
  by_cases hk : key = t
  · rw [if_pos hk, hk, h]
  · rw [if_neg hk]

/-- Witness for C5 on a concrete map in which "Slack" is connected. -/
theorem claim5_connect_idempotent_witness :
    connectTool (fun key => key == "Slack") "Slack" = (fun key => key == "Slack") :=
  claim5_connect_idempotent (fun key => key == "Slack") "Slack" (by decide)

theorem show_false_pending {sugg : WorkflowSuggestion} {s : SeqState}
    (hinv : SeqInv sugg s) (hshow : s.showSetupSteps = false) :
    s.stepStatuses = allPendingSt := by
  unfold SeqInv at hinv
  cases hcasc : s.cascade with
  | none =>
    rw [hcasc] at hinv
    exact hinv.2 hshow
  | some k =>
    rw [hcasc] at hinv
    obtain ⟨hk5, _, hle4, heq5⟩ := hinv
    by_cases hk4 : k ≤ 4
    · have hcontra := (hle4 hk4).2
      rw [hshow] at hcontra
      cases hcontra
    · have hk : k = 5 := by omega
      rcases heq5 hk with ⟨h5, _⟩ | ⟨_, hres⟩
      · rw [hshow] at h5; cases h5
      · exact hres

/-- C1 (amended): in the part_001 variant of the sequencer, whose
connect stage is advanced only by the guarded handleConnectWorkflow
cascade, every reachable state with the connect stage completed has
every required tool of the suggestion connected — so a disconnected
required tool keeps the connect stage away from completed until its
flag is set true. -/
theorem claim1_connect_completed_requires_tools {sugg : WorkflowSuggestion}
    {ct0 : ConnectedTools} {s : SeqState} (hr : Reach sugg ct0 s)
    (hc : s.stepStatuses.connect = StageStatus.completed) :
    ∀ t ∈ sugg.tools, s.connectedTools t = true := by
  have hinv := reach_inv hr
  unfold SeqInv at hinv
  cases hcasc : s.cascade with
  | some k =>
    rw [hcasc] at hinv
    exact hinv.2.1
  | none =>
    rw [hcasc] at hinv
    cases hss : s.showSetupSteps with
    | true => exact (hinv.1 hss).2
    | false =>
      rw [hinv.2 hss] at hc
      exact absurd hc (by decide)

/-- Demonstration suggestion (the rule-1 scheduled-Slack template). -/
def demoSugg : WorkflowSuggestion :=
  { trigger := "Time-based"
    action := "Send Slack message"
    frequency := "Daily at 9:00 AM"
    tools := ["Slack"]
    missingInfo := some ["Which Slack channel?", "What message content?"] }

/-- Demonstration connection map: only "Slack" connected, as in the
initial connectedTools state of part_000 and part_001 (restricted to
the one key the demonstration suggestion needs). -/
def demoCT : ConnectedTools := fun t => t == "Slack"

/-- Witness for C1: the state reached by clicking connect-workflow and
letting the first cascade timer fire has the connect stage completed,
and the theorem yields that every required tool is indeed connected
there. -/
theorem claim1_connect_completed_requires_tools_witness :
    (step demoSugg (step demoSugg (initSeqState demoCT) Ev.clickConnectWorkflow)
      Ev.timerFire).connectedTools "Slack" = true :=
  claim1_connect_completed_requires_tools
    (Reach.next Ev.timerFire (Reach.next Ev.clickConnectWorkflow Reach.init))
    (by decide) "Slack" (by decide)

/-- Two-tool suggestion (the rule-2 email-to-WhatsApp template), used
to exercise the part_000 flow with more than one disconnected tool. -/
def cexSugg : WorkflowSuggestion :=
  { trigger := "Email received"
    action := "Send WhatsApp notification"
    frequency := "Every time"
    tools := ["Gmail", "WhatsApp"]
    missingInfo := some ["Define \"important email\" criteria"] }

/-- part_000 card state with no tool connected and all stages pending:
the state of a freshly rendered card for cexSugg when the ambient map
connects nothing. -/
def cexState0 : CardStateA :=
  { connectedTools := fun _ => false
    stepStatuses := allPendingSt
    currentStep := 1 }

/-- The part_000 card state after the user clicks the Connect button
next to Gmail in the connection-status alert and the simulated
connection resolves: handleConnectTool connected Gmail only and marked
the connect stage completed. -/
def cexState1 : CardStateA :=
  handleConnectToolDoneA cexSugg (some "Gmail") (handleConnectToolStartA cexState0)

/-- Counterexample to C1 as stated: under the part_000 variant of the
sequencer, after connecting only Gmail the connect stage is completed
while the required tool "WhatsApp" is still mapped to false. -/
theorem claim1_counterexample :
    "WhatsApp" ∈ cexSugg.tools ∧
    cexState1.stepStatuses.connect = StageStatus.completed ∧
    cexState1.connectedTools "WhatsApp" = false := by
  decide

/-- Observation trace of one staging run in the part_001 variant: the
state before the connect-workflow click, the state right after the
click, and the state after each of the five scheduled status timers of
the handleConnectWorkflow chain fires. -/
def connectRunStates (sugg : WorkflowSuggestion) (s : SeqState) : List SeqState :=
  let s1 := step sugg s Ev.clickConnectWorkflow
  let s2 := step sugg s1 Ev.timerFire
  let s3 := step sugg s2 Ev.timerFire
  let s4 := step sugg s3 Ev.timerFire
  let s5 := step sugg s4 Ev.timerFire
  let s6 := step sugg s5 Ev.timerFire
  [s, s1, s2, s3, s4, s5, s6]

theorem connectRun_trace (sugg : WorkflowSuggestion) (s : SeqState)
    (hshow : s.showSetupSteps = false) (hst : s.stepStatuses = allPendingSt)
    (hallB : allToolsConnected sugg s.connectedTools = true) :
    (connectRunStates sugg s).map SeqState.stepStatuses =
      [allPendingSt, cascadeStages 0, cascadeStages 1, cascadeStages 2,
       cascadeStages 3, cascadeStages 4, allCompletedSt] := by
  unfold connectRunStates
  simp only [step]
  rw [if_pos ⟨by rw [hst]; decide, hshow, hallB⟩]
  unfold handleConnectWorkflowB
  rw [hallB, if_neg (by decide)]
  simp [fireCascade, hst, cascadeStages, allPendingSt, allCompletedSt]

/-- C2: from any reachable part_001 card state whose setup panel is
closed and all of whose required tools are connected, clicking
connect-workflow and letting the five scheduled status timers fire
yields exactly the snapshot sequence in which connect, then
permissions, then test each pass from pending through loading to
completed, never moving backward, and the run terminates with all
three stages completed. -/
theorem claim2_staging_run_completes {sugg : WorkflowSuggestion} {ct0 : ConnectedTools}
    {s : SeqState} (hr : Reach sugg ct0 s)
    (hall : ∀ t ∈ sugg.tools, s.connectedTools t = true)
    (hshow : s.showSetupSteps = false) :
    (connectRunStates sugg s).map SeqState.stepStatuses =
      [allPendingSt, cascadeStages 0, cascadeStages 1, cascadeStages 2,
       cascadeStages 3, cascadeStages 4, allCompletedSt] ∧
    chainForwardB ((connectRunStates sugg s).map SeqState.stepStatuses) = true ∧
    ((connectRunStates sugg s).map SeqState.stepStatuses).getLast? = some allCompletedSt := by
  have hinv := reach_inv hr
  have hallB := (allToolsConnected_iff sugg s.connectedTools).mpr hall
  have hst := show_false_pending hinv hshow
  have htr := connectRun_trace sugg s hshow hst hallB
  refine ⟨htr, ?_, ?_⟩
  · rw [htr]; decide
  · rw [htr]; decide

/-- Witness for C2 on the demonstration card whose one required tool is
already connected. -/
theorem claim2_staging_run_completes_witness :
    (connectRunStates demoSugg (initSeqState demoCT)).map SeqState.stepStatuses =
      [allPendingSt, cascadeStages 0, cascadeStages 1, cascadeStages 2,
       cascadeStages 3, cascadeStages 4, allCompletedSt] ∧
    chainForwardB
      ((connectRunStates demoSugg (initSeqState demoCT)).map SeqState.stepStatuses) = true ∧
    ((connectRunStates demoSugg (initSeqState demoCT)).map SeqState.stepStatuses).getLast? =
      some allCompletedSt :=
  claim2_staging_run_completes Reach.init (by decide) rfl

theorem stForwardB_refl (x : StepStatuses) : stForwardB x x = true := by
  obtain ⟨c, p, t⟩ := x
  cases c <;> cases p <;> cases t <;> decide

theorem step_keeps_connected (sugg : WorkflowSuggestion) (s : SeqState) (ev : Ev)
    (t : String) (h : s.connectedTools t = true) :
    (step sugg s ev).connectedTools t = true := by
  cases ev with
  | clickConnectTool toolName => exact connectTool_keeps _ _ _ h
  | timerFire =>
    show (fireCascade s).connectedTools t = true
    unfold fireCascade
    cases hcasc : s.cascade with
    | none => exact h
    | some k => exact h
  | clickEditWorkflow =>
    show (if _ then handleEditWorkflowB s else s).connectedTools t = true
    by_cases hg : s.stepStatuses.test = StageStatus.completed
    · rw [if_pos hg]; exact h
    · rw [if_neg hg]; exact h
  | clickConnectWorkflow =>
    show (if _ then handleConnectWorkflowB sugg s else s).connectedTools t = true
    by_cases hg : s.stepStatuses.test ≠ StageStatus.completed ∧ s.showSetupSteps = false ∧
        allToolsConnected sugg s.connectedTools = true
    · rw [if_pos hg]
      unfold handleConnectWorkflowB
      by_cases hall : allToolsConnected sugg s.connectedTools = false
      · rw [if_pos hall]
        cases hdl : disconnectedToolsList sugg s.connectedTools with
        | nil => exact h
        | cons a l => exact connectTool_keeps _ _ _ h
      · rw [if_neg hall]; exact h
    · rw [if_neg hg]; exact h

/-- C9: the connection map is monotone.  Over the part_001 sequencer,
once a tool is connected it stays connected under any sequence of
interface events (nothing ever resets a flag to false or removes an
entry); and the part_000 handleConnectTool flow, the only other writer
of the map in the repository, likewise only grows it. -/
theorem claim9_connected_monotone :
    (∀ (sugg : WorkflowSuggestion) (s : SeqState) (evs : List Ev) (t : String),
      s.connectedTools t = true → (run sugg s evs).connectedTools t = true) ∧
    (∀ (sugg : WorkflowSuggestion) (toolName : Option String) (s : CardStateA) (t : String),
      s.connectedTools t = true →
      (handleConnectToolDoneA sugg toolName (handleConnectToolStartA s)).connectedTools t = true) := by
  constructor
  · intro sugg s evs
    induction evs generalizing s with
    | nil => intro t h; exact h
    | cons ev evs ih =>
      intro t h
      exact ih (step sugg s ev) t (step_keeps_connected sugg s ev t h)
  · intro sugg toolName s t h
    exact connectTool_keeps _ _ _ h

/-- part_000 card state matching the demonstration map. -/
def demoCardA : CardStateA :=
  { connectedTools := demoCT
    stepStatuses := allPendingSt
    currentStep := 1 }

/-- Witness for C9: Slack stays connected after connecting Gmail, in
both modelled flows. -/
theorem claim9_connected_monotone_witness :
    (run demoSugg (initSeqState demoCT) [Ev.clickConnectTool "Gmail"]).connectedTools "Slack" = true ∧
    (handleConnectToolDoneA demoSugg (some "Gmail")
      (handleConnectToolStartA demoCardA)).connectedTools "Slack" = true :=
  ⟨claim9_connected_monotone.1 demoSugg (initSeqState demoCT) [Ev.clickConnectTool "Gmail"]
      "Slack" (by decide),
   claim9_connected_monotone.2 demoSugg (some "Gmail") demoCardA "Slack" (by decide)⟩

/-- C8 (amended): handleEditWorkflow invoked from any card state sets
all three stage statuses to pending and currentStep to 1; in the
part_001 variant of the sequencer it is also the only event that moves
any stage status backward (every other event is stage-wise
non-decreasing from every reachable state), and it genuinely does move
stages backward from the all-completed state. -/
theorem claim8_edit_reset_only_backward :
    (∀ s : SeqState, (handleEditWorkflowB s).stepStatuses = allPendingSt ∧
      (handleEditWorkflowB s).currentStep = 1) ∧
    (∀ (sugg : WorkflowSuggestion) (ct0 : ConnectedTools) (s : SeqState) (ev : Ev),
      Reach sugg ct0 s → ev ≠ Ev.clickEditWorkflow →
      stForwardB s.stepStatuses (step sugg s ev).stepStatuses = true) ∧
    stForwardB allCompletedSt
      (handleEditWorkflowB
        { connectedTools := demoCT, showSetupSteps := true, currentStep := 3,
          stepStatuses := allCompletedSt, cascade := none }).stepStatuses = false := by
  refine ⟨fun s => ⟨rfl, rfl⟩, ?_, by decide⟩
  intro sugg ct0 s ev hr hne
  have hinv := reach_inv hr
  cases ev with
  | clickEditWorkflow => exact absurd rfl hne
  | clickConnectTool toolName => exact stForwardB_refl _
  | timerFire =>
    show stForwardB s.stepStatuses (fireCascade s).stepStatuses = true
    cases hcasc : s.cascade with
    | none =>
      have hfc : fireCascade s = s := by unfold fireCascade; rw [hcasc]
      rw [hfc]; exact stForwardB_refl _
    | some k =>
      unfold SeqInv at hinv
      rw [hcasc] at hinv
      obtain ⟨hk5, _, hle4, _⟩ := hinv
      interval_cases k
      · have hst := (hle4 (by omega)).1
        have hfc : (fireCascade s).stepStatuses = cascadeStages 1 := by
          unfold fireCascade; rw [hcasc, hst]; rfl
        rw [hfc, hst]; decide
      · have hst := (hle4 (by omega)).1
        have hfc : (fireCascade s).stepStatuses = cascadeStages 2 := by
          unfold fireCascade; rw [hcasc, hst]; rfl
        rw [hfc, hst]; decide
      · have hst := (hle4 (by omega)).1
        have hfc : (fireCascade s).stepStatuses = cascadeStages 3 := by
          unfold fireCascade; rw [hcasc, hst]; rfl
        rw [hfc, hst]; decide
      · have hst := (hle4 (by omega)).1
        have hfc : (fireCascade s).stepStatuses = cascadeStages 4 := by
          unfold fireCascade; rw [hcasc, hst]; rfl
        rw [hfc, hst]; decide
      · have hst := (hle4 (by omega)).1
        have hfc : (fireCascade s).stepStatuses = allCompletedSt := by
          unfold fireCascade; rw [hcasc, hst]; rfl
        rw [hfc, hst]; decide
      · have hfc : (fireCascade s).stepStatuses = s.stepStatuses := by
          unfold fireCascade; rw [hcasc]
        rw [hfc]; exact stForwardB_refl _
  | clickConnectWorkflow =>
    show stForwardB s.stepStatuses
      (if _ then handleConnectWorkflowB sugg s else s).stepStatuses = true
    by_cases hg : s.stepStatuses.test ≠ StageStatus.completed ∧ s.showSetupSteps = false ∧
        allToolsConnected sugg s.connectedTools = true
    · rw [if_pos hg]
      unfold handleConnectWorkflowB
      rw [hg.2.2, if_neg (by decide)]
      rw [show_false_pending (reach_inv hr) hg.2.1]
      show stForwardB allPendingSt
        ⟨StageStatus.loading, StageStatus.pending, StageStatus.pending⟩ = true
      decide
    · rw [if_neg hg]; exact stForwardB_refl _

/-- Witness for C8 at concrete states: the reset clause at the initial
demonstration state, and the forward clause for a timer event from the
initial state. -/
theorem claim8_edit_reset_only_backward_witness :
    (handleEditWorkflowB (initSeqState demoCT)).stepStatuses = allPendingSt ∧
    stForwardB (initSeqState demoCT).stepStatuses
      (step demoSugg (initSeqState demoCT) Ev.timerFire).stepStatuses = true :=
  ⟨(claim8_edit_reset_only_backward.1 (initSeqState demoCT)).1,
   claim8_edit_reset_only_backward.2.1 demoSugg demoCT (initSeqState demoCT) Ev.timerFire
     Reach.init (by decide)⟩

/-- Counterexample to C8 as stated: in the part_000 variant, clicking
Connect for the still-disconnected WhatsApp after Gmail was connected
re-enters handleConnectTool, whose synchronous prefix moves the
already-completed connect stage back to loading — a backward move by
an operation other than edit-workflow. -/
theorem claim8_counterexample :
    cexState1.stepStatuses.connect = StageStatus.completed ∧
    (handleConnectToolStartA cexState1).stepStatuses.connect = StageStatus.loading ∧
    stForwardB cexState1.stepStatuses (handleConnectToolStartA cexState1).stepStatuses = false := by
  decide

end TryCentral
